import Mathlib

/-!
Verification of the signal-detection and alert-deduplication pipeline of a
crypto alert system.  The Python source operates on pandas series of IEEE
floats; we shallowly embed a series as a function `ℕ → Option ℚ`, where
`none` stands for IEEE NaN (pandas "missing").  Comparisons against NaN are
false, arithmetic propagates NaN, and division by zero in the embedded code
paths only ever occurs with a vanishing numerator (flat-market case), where
IEEE gives 0/0 = NaN, matched by `none` here.
-/

/-- NaN-propagating addition on option rationals. -/
def optAdd : Option ℚ → Option ℚ → Option ℚ
  | some a, some b => some (a + b)
  | _, _ => none

/-- NaN-propagating subtraction on option rationals. -/
def optSub : Option ℚ → Option ℚ → Option ℚ
  | some a, some b => some (a - b)
  | _, _ => none

/-- NaN-propagating multiplication on option rationals. -/
def optMul : Option ℚ → Option ℚ → Option ℚ
  | some a, some b => some (a * b)
  | _, _ => none

/-- NaN-propagating absolute value. -/
def optAbs : Option ℚ → Option ℚ
  | some a => some |a|
  | none => none

/-- Division with NaN propagation.  A zero denominator yields `none`: in the
code paths embedded here a zero denominator only arises together with a zero
numerator (IEEE 0/0 = NaN), so `none` is the faithful image. -/
def optDiv : Option ℚ → Option ℚ → Option ℚ
  | some a, some b => if b = 0 then none else some (a / b)
  | _, _ => none

/-- `x <= y` as pandas evaluates it: false when either side is NaN. -/
def optLeB : Option ℚ → Option ℚ → Bool
  | some a, some b => decide (a ≤ b)
  | _, _ => false

/-- `x < y` as pandas evaluates it: false when either side is NaN. -/
def optLtB : Option ℚ → Option ℚ → Bool
  | some a, some b => decide (a < b)
  | _, _ => false

/-- `x >= y` as pandas evaluates it: false when either side is NaN. -/
def optGeB : Option ℚ → Option ℚ → Bool
  | some a, some b => decide (b ≤ a)
  | _, _ => false

/-- `x > y` as pandas evaluates it: false when either side is NaN. -/
def optGtB : Option ℚ → Option ℚ → Bool
  | some a, some b => decide (b < a)
  | _, _ => false

/-- One step of `ewm(span, adjust=False).mean()`: a NaN input carries the
previous state forward; the first valid input seeds the state. -/
def emaStep (a : ℚ) (state x : Option ℚ) : Option ℚ :=
  match x, state with
  | none, s => s
  | some v, none => some v
  | some v, some s => some ((1 - a) * s + a * v)

/-- `series.ewm(span, adjust=False).mean()` evaluated at index `t`, with
smoothing factor `a` (the caller passes `2 / (span + 1)`). -/
def emaF (a : ℚ) (x : ℕ → Option ℚ) : ℕ → Option ℚ
  | 0 => emaStep a none (x 0)
  | t + 1 => emaStep a (emaF a x t) (x (t + 1))

/-- Collect the rolling window of width `n` ending at index `t`
(newest first); `none` while the window is not yet full or when any entry
inside it is NaN — pandas rolling aggregations return NaN in both cases. -/
def optWindow (x : ℕ → Option ℚ) (n t : ℕ) : Option (List ℚ) :=
  if t + 1 < n then none
  else ((List.range n).map fun i => x (t - i)).mapM id

/-- `series.rolling(window=n).mean()` at index `t`. -/
def smaF (n : ℕ) (x : ℕ → Option ℚ) (t : ℕ) : Option ℚ :=
  (optWindow x n t).map fun l => l.sum / (n : ℚ)

/-- `series.shift(1)` at index `t` (NaN at index 0). -/
def prevF (x : ℕ → Option ℚ) : ℕ → Option ℚ
  | 0 => none
  | t + 1 => x t

/-- `series.rolling(window=n).min()` at index `t`. -/
def rollingMinF (x : ℕ → Option ℚ) (n t : ℕ) : Option ℚ :=
  (optWindow x n t).bind fun l =>
    match l with
    | [] => none
    | a :: rest => some (rest.foldl min a)

/-- `series.rolling(window=n).max()` at index `t`. -/
def rollingMaxF (x : ℕ → Option ℚ) (n t : ℕ) : Option ℚ :=
  (optWindow x n t).bind fun l =>
    match l with
    | [] => none
    | a :: rest => some (rest.foldl max a)

/-- An OHLC candle row (all fields finite, as delivered by the fetcher). -/
structure Candle where
  openPrice : ℚ
  highPrice : ℚ
  lowPrice : ℚ
  closePrice : ℚ
deriving Repr, DecidableEq

/-- Smoothing factor of `ta.ema` with the given span, `2 / (period + 1)`. -/
def alphaOf (period : ℕ) : ℚ := 2 / ((period : ℚ) + 1)

/-- `hlc3 = (High + Low + Close) / 3` from `wavetrend`. -/
def hlc3F (src : ℕ → Candle) (t : ℕ) : Option ℚ :=
  some (((src t).highPrice + (src t).lowPrice + (src t).closePrice) / 3)

/-- `esa = ema(hlc3, channel_len)` with `channel_len = 9`. -/
def esaF (src : ℕ → Candle) : ℕ → Option ℚ :=
  emaF (alphaOf 9) (hlc3F src)

/-- `de = ema(abs(hlc3 - esa), channel_len)`. -/
def deF (src : ℕ → Candle) : ℕ → Option ℚ :=
  emaF (alphaOf 9) fun t => optAbs (optSub (hlc3F src t) (esaF src t))

/-- `ci = (hlc3 - esa) / (0.015 * de)` — the 0.015 coefficient is the fixed
Pine-Script constant. -/
def ciF (src : ℕ → Candle) (t : ℕ) : Option ℚ :=
  optDiv (optSub (hlc3F src t) (esaF src t)) (optMul (some (15 / 1000)) (deF src t))

/-- `wt1 = ema(ci, average_len)` with `average_len = 12`. -/
def wt1F (src : ℕ → Candle) : ℕ → Option ℚ :=
  emaF (alphaOf 12) (ciF src)

/-- `wt2 = sma(wt1, ma_len)` with `ma_len = 3`. -/
def wt2F (src : ℕ → Candle) : ℕ → Option ℚ :=
  smaF 3 (wt1F src)

/-- `cross_any`: `((wt1.shift(1) <= wt2.shift(1)) & (wt1 > wt2)) |
((wt1.shift(1) >= wt2.shift(1)) & (wt1 < wt2))`. -/
def crossAnyF (w1 w2 : ℕ → Option ℚ) (t : ℕ) : Bool :=
  (optLeB (prevF w1 t) (prevF w2 t) && optGtB (w1 t) (w2 t)) ||
  (optGeB (prevF w1 t) (prevF w2 t) && optLtB (w1 t) (w2 t))

/-- `cross_up = cross_any & (wt2 - wt1 <= 0)`. -/
def crossUpF (w1 w2 : ℕ → Option ℚ) (t : ℕ) : Bool :=
  crossAnyF w1 w2 t && optLeB (optSub (w2 t) (w1 t)) (some 0)

/-- `cross_down = cross_any & (wt2 - wt1 >= 0)`. -/
def crossDownF (w1 w2 : ℕ → Option ℚ) (t : ℕ) : Bool :=
  crossAnyF w1 w2 t && optGeB (optSub (w2 t) (w1 t)) (some 0)

/-- `oversold_current = (wt1 <= -60) & (wt2 <= -60)`. -/
def oversoldF (w1 w2 : ℕ → Option ℚ) (t : ℕ) : Bool :=
  optLeB (w1 t) (some (-60)) && optLeB (w2 t) (some (-60))

/-- `overbought_current = (wt2 >= 60) & (wt1 >= 60)`. -/
def overboughtF (w1 w2 : ℕ → Option ℚ) (t : ℕ) : Bool :=
  optGeB (w2 t) (some 60) && optGeB (w1 t) (some 60)

/-- `buySignal = cross_any & cross_up & oversold_current`. -/
def buySignalF (w1 w2 : ℕ → Option ℚ) (t : ℕ) : Bool :=
  crossAnyF w1 w2 t && crossUpF w1 w2 t && oversoldF w1 w2 t

/-- `sellSignal = cross_any & cross_down & overbought_current`. -/
def sellSignalF (w1 w2 : ℕ → Option ℚ) (t : ℕ) : Bool :=
  crossAnyF w1 w2 t && crossDownF w1 w2 t && overboughtF w1 w2 t

/-- `detect_cipherb_signals` buy column at index `t` for Heikin-Ashi input
`src`. -/
def detectBuyF (src : ℕ → Candle) (t : ℕ) : Bool :=
  buySignalF (wt1F src) (wt2F src) t

/-- `detect_cipherb_signals` sell column at index `t`. -/
def detectSellF (src : ℕ → Candle) (t : ℕ) : Bool :=
  sellSignalF (wt1F src) (wt2F src) t

/-- `heikin_ashi`: HA Close = (Open + High + Low + Close) / 4. -/
def haCloseF (df : ℕ → Candle) (t : ℕ) : ℚ :=
  ((df t).openPrice + (df t).highPrice + (df t).lowPrice + (df t).closePrice) / 4

/-- `heikin_ashi`: HA Open, seeded as (Open₀ + Close₀) / 2, then
HA Open t = (HA Open (t-1) + HA Close (t-1)) / 2. -/
def haOpenF (df : ℕ → Candle) : ℕ → ℚ
  | 0 => ((df 0).openPrice + (df 0).closePrice) / 2
  | t + 1 => (haOpenF df t + haCloseF df t) / 2

/-- `heikin_ashi`: HA High = max(HA Open, HA Close, raw High). -/
def haHighF (df : ℕ → Candle) (t : ℕ) : ℚ :=
  max (max (haOpenF df t) (haCloseF df t)) (df t).highPrice

/-- `heikin_ashi`: HA Low = min(HA Open, HA Close, raw Low). -/
def haLowF (df : ℕ → Candle) (t : ℕ) : ℚ :=
  min (min (haOpenF df t) (haCloseF df t)) (df t).lowPrice

/-- The Heikin-Ashi candle at index `t`. -/
def heikinAshiF (df : ℕ → Candle) (t : ℕ) : Candle :=
  ⟨haOpenF df t, haHighF df t, haLowF df t, haCloseF df t⟩

/-- `heikin_ashi` on a finite frame: raises `ValueError` on an empty input
(embedded as `none`), otherwise produces the converted rows. -/
def heikinAshiList (df : List Candle) : Option (List Candle) :=
  if df = [] then none
  else some ((List.range df.length).map (heikinAshiF fun i => df.getD i ⟨0, 0, 0, 0⟩))

/-- In-memory state of `AlertDeduplicator`: the alert cache (key ↦ epoch
seconds of the last recorded alert) plus the two statistics counters the
embedded methods touch. -/
structure DedupState where
  cache : List (String × ℚ)
  duplicatesBlocked : ℕ
  alertsRecorded : ℕ
deriving Repr, DecidableEq

/-- `str.upper()` embedded character-wise (ASCII uppercasing), structurally
computable. -/
def upperStr (s : String) : String :=
  ⟨s.data.map Char.toUpper⟩

/-- `_get_cache_key`: `f"{symbol.upper()}_{signal_type.upper()}"`. -/
def getCacheKey (symbol signalType : String) : String :=
  upperStr symbol ++ "_" ++ upperStr signalType

/-- Dictionary lookup on the cache association list. -/
def lookupKey (cache : List (String × ℚ)) (key : String) : Option ℚ :=
  match cache.find? fun kv => kv.1 = key with
  | some kv => some kv.2
  | none => none

/-- `del cache[key]`. -/
def removeKey (cache : List (String × ℚ)) (key : String) : List (String × ℚ) :=
  cache.filter fun kv => kv.1 ≠ key

/-- `cache[key] = value` (replace or append). -/
def insertKey (cache : List (String × ℚ)) (key : String) (value : ℚ) :
    List (String × ℚ) :=
  removeKey cache key ++ [(key, value)]

/-- `AlertDeduplicator.is_duplicate`: looks the key up; inside the cooldown
it counts a blocked duplicate and returns true; past the cooldown it deletes
the stale entry and returns false; with no entry it returns false.  It never
writes a new record. -/
def isDuplicate (s : DedupState) (cooldownSeconds : ℚ)
    (symbol signalType : String) (currentTime : ℚ) : Bool × DedupState :=
  let key := getCacheKey symbol signalType
  match lookupKey s.cache key with
  | some lastAlertTime =>
      if currentTime - lastAlertTime < cooldownSeconds then
        (true, { s with duplicatesBlocked := s.duplicatesBlocked + 1 })
      else
        (false, { s with cache := removeKey s.cache key })
  | none => (false, s)

/-- `AlertDeduplicator.record_alert`: stores the current time under the key
and bumps the recorded counter (the file save is I/O, outside this state). -/
def recordAlert (s : DedupState) (symbol signalType : String)
    (currentTime : ℚ) : DedupState :=
  { s with
    cache := insertKey s.cache (getCacheKey symbol signalType) currentTime
    alertsRecorded := s.alertsRecorded + 1 }

/-- `AlertDeduplicator._load_cache`: a successful read is cleaned of expired
entries; any read exception is caught and an empty cache is returned. -/
def loadCache (cooldownSeconds currentTime : ℚ)
    (readResult : Except String (List (String × ℚ))) : List (String × ℚ) :=
  match readResult with
  | .ok cacheData => cacheData.filter fun kv => currentTime - kv.2 < cooldownSeconds
  | .error _ => []

/-- `AlertDeduplicator._save_cache`: any write exception is caught and
reported; the in-memory state is returned unchanged either way. -/
def saveCache (s : DedupState) (writeResult : Except String Unit) : DedupState :=
  match writeResult with
  | .ok _ => s
  | .error _ => s

/-- Bucket computation of `ProfessionalAnalyzer.is_new_4h_candle` on naive
datetimes embedded as epoch seconds: zero out minutes and seconds, then
floor the hour to a multiple of 4. -/
def floor4h (t : ℕ) : ℕ :=
  let daySeconds := t % 86400
  let hour := daySeconds / 3600
  (t - daySeconds) + ((hour / 4) * 4) * 3600

/-- `ProfessionalAnalyzer.is_new_4h_candle`: the 4h bucket of the signal candle
must equal the current 4h bucket, and at most 15 minutes (900 s) may have
elapsed since the current bucket opened. -/
def isNew4hCandle (signalTimestamp now : ℕ) : Bool :=
  floor4h signalTimestamp == floor4h now && now - floor4h now ≤ 900

/-- `diff()` of the close series: NaN at index 0. -/
def deltaF (close : ℕ → ℚ) : ℕ → Option ℚ
  | 0 => none
  | t + 1 => some (close (t + 1) - close t)

/-- `gain = delta.where(delta > 0, 0)`; the index-0 NaN fails the
comparison and is replaced by 0. -/
def gainF (close : ℕ → ℚ) (t : ℕ) : ℚ :=
  match deltaF close t with
  | some d => if 0 < d then d else 0
  | none => 0

/-- `loss = -delta.where(delta < 0, 0)`. -/
def lossF (close : ℕ → ℚ) (t : ℕ) : ℚ :=
  match deltaF close t with
  | some d => if d < 0 then -d else 0
  | none => 0

/-- `rolling(window=n).mean()` of an everywhere-defined series. -/
def rollingMeanTot (x : ℕ → ℚ) (n t : ℕ) : Option ℚ :=
  if t + 1 < n then none
  else some ((((List.range n).map fun i => x (t - i)).sum) / (n : ℚ))

/-- `avg_gain = gain.rolling(window=period).mean()`. -/
def avgGainF (close : ℕ → ℚ) (period t : ℕ) : Option ℚ :=
  rollingMeanTot (gainF close) period t

/-- `avg_loss = loss.rolling(window=period).mean()`. -/
def avgLossF (close : ℕ → ℚ) (period t : ℕ) : Option ℚ :=
  rollingMeanTot (lossF close) period t

/-- `rs = avg_gain / avg_loss.replace(0, np.inf)`: a zero average loss is
replaced by +∞, and a finite average gain divided by +∞ is exactly 0. -/
def rsF (close : ℕ → ℚ) (period t : ℕ) : Option ℚ :=
  match avgGainF close period t, avgLossF close period t with
  | some g, some l => if l = 0 then some 0 else some (g / l)
  | _, _ => none

/-- `rsi_values = 100 - (100 / (1 + rs))` from `stoch_rsi.rsi`. -/
def rsiF (close : ℕ → ℚ) (period t : ℕ) : Option ℚ :=
  (rsF close period t).map fun rs => 100 - 100 / (1 + rs)

/-- `stoch_rsi.stochastic`: `denominator = (highest_high - lowest_low)
.replace(0, np.inf)`, then `(close - lowest_low) / denominator * 100`.
A zero range becomes a +∞ denominator, and the finite numerator divided by
+∞ is exactly 0, so the value at a zero-range index is 0. -/
def stochasticF (highS lowS closeS : ℕ → Option ℚ) (period t : ℕ) : Option ℚ :=
  match rollingMinF lowS period t, rollingMaxF highS period t, closeS t with
  | some lo, some hi, some c =>
      if hi - lo = 0 then some 0 else some ((c - lo) / (hi - lo) * 100)
  | _, _, _ => none

/-- `stochrsi_3h.calculate_stochastic_rsi` body, given the RSI series:
`np.where(rsi_range != 0, (rsi - min_rsi) / rsi_range, 0)`.  A NaN range
(warm-up) passes the `!= 0` test and propagates NaN; a zero range selects
the literal 0 branch. -/
def stochRsi3hRaw (rsiS : ℕ → Option ℚ) (stochPeriod t : ℕ) : Option ℚ :=
  match rollingMinF rsiS stochPeriod t, rollingMaxF rsiS stochPeriod t, rsiS t with
  | some mn, some mx, some r =>
      if mx - mn ≠ 0 then some ((r - mn) / (mx - mn)) else some 0
  | _, _, _ => none

/-- Signal direction used by the confirmation check of the orchestrator. -/
inductive SignalType where
  | buy
  | sell
deriving Repr, DecidableEq

/-- `_process_single_coin` confirmation: BUY needs `stoch_rsi_k <= 20`,
SELL needs `stoch_rsi_k >= 80`. -/
def confirmationCheck (signalType : SignalType) (stochRsiK : ℚ) : Bool :=
  match signalType with
  | .buy => decide (stochRsiK ≤ 20)
  | .sell => decide (80 ≤ stochRsiK)

/-- Per-coin outcome the category loop consumes. -/
structure CoinResult where
  signalDetected : Bool
  alertSent : Bool
deriving Repr, DecidableEq

/-- Counters returned by `_process_coin_category`. -/
structure CategoryResult where
  coinsProcessed : ℕ
  signalsFound : ℕ
  alertsSent : ℕ
  errors : ℕ
deriving Repr, DecidableEq

/-- `_process_coin_category`: per-coin processing runs inside a
`try/except`; an exception is counted in `errors` and the loop continues
with the next coin, while a normal result updates the signal and alert
counters. -/
def processCoinCategory (f : String → Except String CoinResult)
    (coinList : List String) : CategoryResult :=
  let step := fun (acc : ℕ × ℕ × ℕ) coin =>
    match f coin with
    | .ok r =>
        (acc.1 + (if r.signalDetected then 1 else 0),
         acc.2.1 + (if r.alertSent then 1 else 0), acc.2.2)
    | .error _ => (acc.1, acc.2.1, acc.2.2 + 1)
  let counts := coinList.foldl step (0, 0, 0)
  ⟨coinList.length, counts.1, counts.2.1, counts.2.2⟩

/-- Example oscillator line used to exercise the signal rule: below the
companion line at index 0, above it from index 1 on. -/
def w1ex : ℕ → Option ℚ := fun t => some (if t = 0 then -70 else -64)

/-- Companion oscillator line, constant in the oversold zone. -/
def w2ex : ℕ → Option ℚ := fun _ => some (-65)

/-- Example per-coin processing where exactly the ETH fetch raises. -/
def exF (c : String) : Except String CoinResult :=
  if c = "ETH" then .error "DataSourceUnavailableError" else .ok ⟨true, true⟩

/-- Example two-candle OHLC frame. -/
def dfEx : List Candle := [⟨1, 3, 0, 2⟩, ⟨2, 5, 1, 4⟩]

theorem floor4h_eq (t : ℕ) : floor4h t = t - t % 14400 := by
  show (t - t % 86400) + ((t % 86400 / 3600) / 4) * 4 * 3600 = t - t % 14400
  omega

theorem isNew4h_iff (sig now : ℕ) :
    isNew4hCandle sig now = true ↔
      (floor4h sig = floor4h now ∧ now - floor4h now ≤ 900) := by
  simp [isNew4hCandle]

theorem find?_filter_ne (c : List (String × ℚ)) (k : String) :
    (c.filter fun kv => kv.1 ≠ k).find? (fun kv => kv.1 = k) = none := by
  rw [List.find?_eq_none]
  intro x hx
  simp [List.mem_filter] at hx
  simp [hx.2]

theorem lookupKey_insert (c : List (String × ℚ)) (k : String) (v : ℚ) :
    lookupKey (insertKey c k v) k = some v := by
  simp only [insertKey, removeKey, lookupKey]
  rw [List.find?_append, find?_filter_ne]
  simp [List.find?]

theorem getD_map_range {β : Type} (g : ℕ → β) (n i : ℕ) (d : β) (h : i < n) :
    ((List.range n).map g).getD i d = g i := by
  rw [List.getD_eq_getElem _ _ (by simpa using h)]
  simp

theorem emaF_const (a c : ℚ) : ∀ t, emaF a (fun _ => some c) t = some c := by
  intro t
  induction t with
  | zero => rfl
  | succ n ih =>
      rw [emaF, ih]
      show some ((1 - a) * c + a * c) = some c
      congr 1
      ring

theorem emaF_none (a : ℚ) : ∀ t, emaF a (fun _ => none) t = none := by
  intro t
  induction t with
  | zero => rfl
  | succ n ih => rw [emaF, ih]; rfl

theorem emaF_congr (a : ℚ) (x y : ℕ → Option ℚ) (h : ∀ t, x t = y t) :
    ∀ t, emaF a x t = emaF a y t := by
  intro t
  induction t with
  | zero => rw [emaF, emaF, h]
  | succ n ih => rw [emaF, emaF, h, ih]

theorem hlc3F_flat (c : ℚ) (t : ℕ) :
    hlc3F (fun _ => ⟨c, c, c, c⟩) t = some c := by
  simp only [hlc3F]
  congr 1
  ring

theorem esaF_flat (c : ℚ) (t : ℕ) :
    esaF (fun _ => ⟨c, c, c, c⟩) t = some c := by
  rw [esaF, emaF_congr _ _ (fun _ => some c) (hlc3F_flat c), emaF_const]

theorem deF_flat (c : ℚ) (t : ℕ) :
    deF (fun _ => ⟨c, c, c, c⟩) t = some 0 := by
  rw [deF, emaF_congr _ _ (fun _ => some 0)
    (fun u => by rw [hlc3F_flat, esaF_flat]; simp [optSub, optAbs]), emaF_const]

theorem ciF_flat (c : ℚ) (t : ℕ) :
    ciF (fun _ => ⟨c, c, c, c⟩) t = none := by
  rw [ciF, hlc3F_flat, esaF_flat, deF_flat]
  simp [optSub, optMul, optDiv]

theorem wt1F_flat (c : ℚ) (t : ℕ) :
    wt1F (fun _ => ⟨c, c, c, c⟩) t = none := by
  rw [wt1F, emaF_congr _ _ (fun _ => none) (ciF_flat c), emaF_none]

theorem wt2F_flat (c : ℚ) (t : ℕ) :
    wt2F (fun _ => ⟨c, c, c, c⟩) t = none := by
  rw [wt2F]
  by_cases h : t + 1 < 3
  · simp [smaF, optWindow, h]
  · have h0 : wt1F (fun _ => ⟨c, c, c, c⟩) (t - 0) = none := wt1F_flat c _
    simp [smaF, optWindow, h, List.range_succ, h0, wt1F_flat c]
    rfl

theorem lossF_succ_zero (close : ℕ → ℚ) (u : ℕ) (h : close u ≤ close (u + 1)) :
    lossF close (u + 1) = 0 := by
  simp only [lossF, deltaF]
  rw [if_neg (by linarith)]

/-- C1 counterexample: starting from a dedup state with no record for
(BTC, BUY), two immediately successive allow-checks BOTH return
"not duplicate" (allowed): `is_duplicate` is a pure check that does not
record, so the claimed atomic check-and-set outcome (allowed, then denied)
is false on the code. -/
theorem dedup_two_checks_both_allow :
    (isDuplicate ⟨[], 0, 0⟩ 7200 "BTC" "BUY" 1000).1 = false ∧
    (isDuplicate (isDuplicate ⟨[], 0, 0⟩ 7200 "BTC" "BUY" 1000).2
      7200 "BTC" "BUY" 1000).1 = false := by
  constructor <;> rfl

/-- C1 amended: the check and the set are two separate operations.  From a
state with no record for the key, `is_duplicate` allows; after a separate
`record_alert` at time t, a later `is_duplicate` within the cooldown
denies. -/
theorem dedup_check_record_check (s : DedupState) (cooldown : ℚ)
    (symbol signalType : String) (t t' : ℚ)
    (hnone : lookupKey s.cache (getCacheKey symbol signalType) = none)
    (hcool : t' - t < cooldown) :
    (isDuplicate s cooldown symbol signalType t).1 = false ∧
    (isDuplicate (recordAlert (isDuplicate s cooldown symbol signalType t).2
        symbol signalType t) cooldown symbol signalType t').1 = true := by
  have hfirst : isDuplicate s cooldown symbol signalType t = (false, s) := by
    simp [isDuplicate, hnone]
  rw [hfirst]
  refine ⟨rfl, ?_⟩
  simp [isDuplicate, recordAlert, lookupKey_insert, hcool]

/-- C1 witness: check, record, check on concrete BTC BUY data. -/
theorem dedup_check_record_check_witness :
    (isDuplicate ⟨[], 0, 0⟩ 7200 "BTC" "BUY" 1000).1 = false ∧
    (isDuplicate (recordAlert (isDuplicate ⟨[], 0, 0⟩ 7200 "BTC" "BUY" 1000).2
        "BTC" "BUY" 1000) 7200 "BTC" "BUY" 1500).1 = true :=
  dedup_check_record_check ⟨[], 0, 0⟩ 7200 "BTC" "BUY" 1000 1500 rfl (by norm_num)

/-- C2: at any index t+1 where both oscillator lines are defined at t and
t+1, the BUY signal fires exactly when a cross occurred (equality at the
prior index counts for either side), the cross resolves with
wt2 - wt1 <= 0, and both lines are at or below -60; the SELL signal fires
exactly when a cross occurred, wt2 - wt1 >= 0, and both lines are at or
above 60.  No signal is marked when any sub-condition fails. -/
theorem cipherb_signal_rule (w1 w2 : ℕ → Option ℚ) (t : ℕ) (p1 p2 c1 c2 : ℚ)
    (h1 : w1 t = some p1) (h2 : w2 t = some p2)
    (h3 : w1 (t + 1) = some c1) (h4 : w2 (t + 1) = some c2) :
    (buySignalF w1 w2 (t + 1) = true ↔
      (((p1 ≤ p2 ∧ c2 < c1) ∨ (p2 ≤ p1 ∧ c1 < c2)) ∧
        c2 - c1 ≤ 0 ∧ c1 ≤ -60 ∧ c2 ≤ -60)) ∧
    (sellSignalF w1 w2 (t + 1) = true ↔
      (((p1 ≤ p2 ∧ c2 < c1) ∨ (p2 ≤ p1 ∧ c1 < c2)) ∧
        0 ≤ c2 - c1 ∧ 60 ≤ c1 ∧ 60 ≤ c2)) := by
  constructor <;>
    · simp [buySignalF, sellSignalF, crossAnyF, crossUpF, crossDownF, oversoldF,
        overboughtF, prevF, optLeB, optGtB, optGeB, optLtB, optSub, h1, h2, h3, h4]
      tauto

/-- C2 witness: an upward cross into the oversold zone at index 1. -/
theorem cipherb_signal_rule_witness :
    (buySignalF w1ex w2ex 1 = true ↔
      ((((-70 : ℚ) ≤ -65 ∧ (-65 : ℚ) < -64) ∨ ((-65 : ℚ) ≤ -70 ∧ (-64 : ℚ) < -65)) ∧
        (-65 : ℚ) - -64 ≤ 0 ∧ (-64 : ℚ) ≤ -60 ∧ (-65 : ℚ) ≤ -60)) ∧
    (sellSignalF w1ex w2ex 1 = true ↔
      ((((-70 : ℚ) ≤ -65 ∧ (-65 : ℚ) < -64) ∨ ((-65 : ℚ) ≤ -70 ∧ (-64 : ℚ) < -65)) ∧
        0 ≤ (-65 : ℚ) - -64 ∧ 60 ≤ (-64 : ℚ) ∧ 60 ≤ (-65 : ℚ))) :=
  cipherb_signal_rule w1ex w2ex 0 (-70) (-65) (-64) (-65) rfl rfl rfl rfl

/-- C3: the freshness gate accepts exactly when the signal candle and the
wall clock fall in the same 4-hour bucket and at most 900 seconds have
elapsed since that bucket opened; at a bucket start, 900 seconds elapsed is
still fresh and 901 seconds is not. -/
theorem freshness_gate_characterization :
    (∀ sig now : ℕ, isNew4hCandle sig now = true ↔
      (floor4h sig = floor4h now ∧ now - floor4h now ≤ 900)) ∧
    (∀ bucketStart : ℕ, bucketStart % 14400 = 0 →
      isNew4hCandle bucketStart (bucketStart + 900) = true ∧
      isNew4hCandle bucketStart (bucketStart + 901) = false) := by
  refine ⟨isNew4h_iff, fun b hb => ⟨?_, ?_⟩⟩
  · rw [isNew4h_iff, floor4h_eq, floor4h_eq]
    omega
  · rw [Bool.eq_false_iff]
    intro hc
    rw [isNew4h_iff, floor4h_eq, floor4h_eq] at hc
    omega

/-- C3 witness: the 08:00 UTC bucket boundary, at +900 s and +901 s. -/
theorem freshness_gate_witness :
    isNew4hCandle 28800 29700 = true ∧ isNew4hCandle 28800 29701 = false :=
  freshness_gate_characterization.2 28800 (by decide)

/-- C4 counterexample: the cache key for BTC BUY is the
timestamp-independent string BTC_BUY — candidates from distinct candle
buckets share it — and the very same cached candidate is denied at
wall-clock 100 but allowed at wall-clock 8000, so the decision depends on
the wall-clock instant of the check. -/
theorem dedup_wallclock_counterexample :
    getCacheKey "BTC" "BUY" = "BTC_BUY" ∧
    (isDuplicate ⟨[("BTC_BUY", 0)], 0, 0⟩ 7200 "BTC" "BUY" 100).1 = true ∧
    (isDuplicate ⟨[("BTC_BUY", 0)], 0, 0⟩ 7200 "BTC" "BUY" 8000).1 = false := by
  have hl : lookupKey [("BTC_BUY", 0)] (getCacheKey "BTC" "BUY") = some 0 := by
    decide
  refine ⟨by decide, ?_, ?_⟩
  · simp [isDuplicate, hl]
    norm_num
  · simp [isDuplicate, hl]
    norm_num

/-- C4 amended: the dedup record key is a function of symbol and signal
type only (both uppercased), identical for all candle timestamps; with a
record present, the allow/deny decision is determined by the wall-clock
elapsed time since the recorded alert, compared with the cooldown. -/
theorem dedup_key_and_cooldown :
    (∀ symbol signalType : String,
      getCacheKey symbol signalType = upperStr symbol ++ "_" ++ upperStr signalType) ∧
    (∀ (st : DedupState) (cooldown lastT now : ℚ) (symbol signalType : String),
      lookupKey st.cache (getCacheKey symbol signalType) = some lastT →
      ((isDuplicate st cooldown symbol signalType now).1 = true ↔
        now - lastT < cooldown)) := by
  refine ⟨fun _ _ => rfl, fun st cooldown lastT now symbol signalType hfound => ?_⟩
  by_cases h : now - lastT < cooldown <;> simp [isDuplicate, hfound, h]

/-- C4 witness: a concrete cached record checked against the cooldown. -/
theorem dedup_key_and_cooldown_witness :
    (isDuplicate ⟨[("BTC_BUY", 5)], 0, 0⟩ 7200 "BTC" "BUY" 100).1 = true ↔
      (100 : ℚ) - 5 < 7200 :=
  dedup_key_and_cooldown.2 ⟨[("BTC_BUY", 5)], 0, 0⟩ 7200 5 100 "BTC" "BUY" (by decide)

/-- C5: on a perfectly flat price input the CI division by zero propagates
as undefined (NaN) rather than raising: wt1 and wt2 are undefined at every
index, and neither a BUY nor a SELL signal fires anywhere. -/
theorem flat_input_no_signal (c : ℚ) (t : ℕ) :
    wt1F (fun _ => ⟨c, c, c, c⟩) t = none ∧
    wt2F (fun _ => ⟨c, c, c, c⟩) t = none ∧
    detectBuyF (fun _ => ⟨c, c, c, c⟩) t = false ∧
    detectSellF (fun _ => ⟨c, c, c, c⟩) t = false := by
  refine ⟨wt1F_flat c t, wt2F_flat c t, ?_, ?_⟩ <;>
    simp [detectBuyF, detectSellF, buySignalF, sellSignalF, crossAnyF,
      wt1F_flat, wt2F_flat, optLeB, optGeB, optGtB, optLtB]

/-- C6 counterexample: on a constant RSI series the zero-range stochastic
resolves to 0 in both confirmation modules, and 0 is not the claimed
neutral midpoint 50. -/
theorem stoch_zero_range_is_zero_not_fifty :
    stochasticF (fun _ => some 55) (fun _ => some 55) (fun _ => some 55) 14 13 = some 0 ∧
    stochRsi3hRaw (fun _ => some 55) 14 13 = some 0 ∧ (0 : ℚ) ≠ 50 := by
  have hmin : rollingMinF (fun _ => some (55 : ℚ)) 14 13 = some 55 := by
    set_option maxRecDepth 4000 in decide
  have hmax : rollingMaxF (fun _ => some (55 : ℚ)) 14 13 = some 55 := by
    set_option maxRecDepth 4000 in decide
  refine ⟨?_, ?_, by norm_num⟩ <;> simp [stochasticF, stochRsi3hRaw, hmin, hmax]

/-- C6 amended: whenever the RSI range over the stochastic window is zero,
both confirmation modules resolve the division by zero to 0 (the bottom of
the scale) without raising. -/
theorem stoch_zero_range_resolves_to_zero (x : ℕ → Option ℚ) (period t : ℕ)
    (m c : ℚ) (hmin : rollingMinF x period t = some m)
    (hmax : rollingMaxF x period t = some m) (hc : x t = some c) :
    stochasticF x x x period t = some 0 ∧ stochRsi3hRaw x period t = some 0 := by
  simp [stochasticF, stochRsi3hRaw, hmin, hmax, hc]

/-- C6 witness: constant series, window fully inside the domain. -/
theorem stoch_zero_range_resolves_to_zero_witness :
    stochasticF (fun _ => some 55) (fun _ => some 55) (fun _ => some 55) 14 20 = some 0 ∧
    stochRsi3hRaw (fun _ => some 55) 14 20 = some 0 :=
  stoch_zero_range_resolves_to_zero (fun _ => some 55) 14 20 55 55
    (by set_option maxRecDepth 4000 in decide)
    (by set_option maxRecDepth 4000 in decide) rfl

/-- C7 counterexample: a cache read failure is caught and yields an empty
cache, so the very next allow-check returns "not duplicate" — the candidate
is ALLOWED, not denied as claimed. -/
theorem dedup_read_failure_allows :
    loadCache 7200 1000 (.error "disk read failed") = [] ∧
    (isDuplicate ⟨loadCache 7200 1000 (.error "disk read failed"), 0, 0⟩
      7200 "BTC" "BUY" 1000).1 = false := by
  constructor <;> rfl

/-- C7 amended: cache I/O failures are caught inside the dedup layer and
never propagate; a read failure resets the in-memory cache to empty, so any
subsequent candidate check returns "not duplicate" (fail-open allow), and a
write failure leaves the in-memory state unchanged. -/
theorem dedup_io_failure_semantics :
    (∀ (err : String) (cooldown now : ℚ),
      loadCache cooldown now (.error err) = []) ∧
    (∀ (err : String) (cooldown now : ℚ) (symbol signalType : String),
      isDuplicate ⟨loadCache cooldown now (.error err), 0, 0⟩
        cooldown symbol signalType now = (false, ⟨[], 0, 0⟩)) ∧
    (∀ (s : DedupState) (err : String), saveCache s (.error err) = s) := by
  refine ⟨fun _ _ _ => rfl, fun err cooldown now symbol signalType => ?_,
    fun _ _ => rfl⟩
  simp [isDuplicate, loadCache, lookupKey]

/-- C8: an exception while processing one coin of a three-coin list is
caught inside the per-coin loop: the other two coins contribute their
results and the errors counter reports exactly 1. -/
theorem orchestrator_exception_isolation
    (f : String → Except String CoinResult) (c1 c2 c3 : String)
    (r1 r3 : CoinResult) (e : String)
    (h1 : f c1 = .ok r1) (h2 : f c2 = .error e) (h3 : f c3 = .ok r3) :
    processCoinCategory f [c1, c2, c3] =
      ⟨3, (if r1.signalDetected then 1 else 0) + (if r3.signalDetected then 1 else 0),
        (if r1.alertSent then 1 else 0) + (if r3.alertSent then 1 else 0), 1⟩ := by
  simp [processCoinCategory, h1, h2, h3]

/-- C8 witness: BTC and SOL succeed with signals and alerts, ETH raises. -/
theorem orchestrator_exception_isolation_witness :
    processCoinCategory exF ["BTC", "ETH", "SOL"] = ⟨3, 2, 2, 1⟩ :=
  orchestrator_exception_isolation exF "BTC" "ETH" "SOL"
    ⟨true, true⟩ ⟨true, true⟩ "DataSourceUnavailableError" rfl rfl rfl

/-- C9: on a non-empty OHLC frame the Heikin-Ashi transform returns a frame
of the same length whose close is the four-price mean, whose open is seeded
from the first raw open/close average and then recurs on the previous
smoothed open and close, and whose high/low are the max/min of smoothed
open, smoothed close and the raw high/low. -/
theorem heikin_ashi_spec (df : List Candle) (h : df ≠ []) :
    ∃ out, heikinAshiList df = some out ∧ out.length = df.length ∧
      (∀ i, i < df.length →
        (out.getD i ⟨0, 0, 0, 0⟩).closePrice =
          ((df.getD i ⟨0, 0, 0, 0⟩).openPrice + (df.getD i ⟨0, 0, 0, 0⟩).highPrice +
            (df.getD i ⟨0, 0, 0, 0⟩).lowPrice + (df.getD i ⟨0, 0, 0, 0⟩).closePrice) / 4) ∧
      (out.getD 0 ⟨0, 0, 0, 0⟩).openPrice =
        ((df.getD 0 ⟨0, 0, 0, 0⟩).openPrice + (df.getD 0 ⟨0, 0, 0, 0⟩).closePrice) / 2 ∧
      (∀ i, i + 1 < df.length →
        (out.getD (i + 1) ⟨0, 0, 0, 0⟩).openPrice =
          ((out.getD i ⟨0, 0, 0, 0⟩).openPrice + (out.getD i ⟨0, 0, 0, 0⟩).closePrice) / 2) ∧
      (∀ i, i < df.length →
        (out.getD i ⟨0, 0, 0, 0⟩).highPrice =
          max (max (out.getD i ⟨0, 0, 0, 0⟩).openPrice (out.getD i ⟨0, 0, 0, 0⟩).closePrice)
            (df.getD i ⟨0, 0, 0, 0⟩).highPrice) ∧
      (∀ i, i < df.length →
        (out.getD i ⟨0, 0, 0, 0⟩).lowPrice =
          min (min (out.getD i ⟨0, 0, 0, 0⟩).openPrice (out.getD i ⟨0, 0, 0, 0⟩).closePrice)
            (df.getD i ⟨0, 0, 0, 0⟩).lowPrice) := by
  have hn : 0 < df.length := List.length_pos.mpr h
  refine ⟨(List.range df.length).map (heikinAshiF fun i => df.getD i ⟨0, 0, 0, 0⟩),
    by simp [heikinAshiList, h], by simp, ?_, ?_, ?_, ?_, ?_⟩
  · intro i hi
    rw [getD_map_range _ _ _ _ hi]
    rfl
  · rw [getD_map_range _ _ _ _ hn]
    rfl
  · intro i hi
    rw [getD_map_range _ _ _ _ hi, getD_map_range _ _ _ _ (by omega)]
    rfl
  · intro i hi
    rw [getD_map_range _ _ _ _ hi]
    rfl
  · intro i hi
    rw [getD_map_range _ _ _ _ hi]
    rfl

/-- C9 witness: the transform applied to a concrete two-candle frame. -/
theorem heikin_ashi_spec_witness :
    ∃ out, heikinAshiList dfEx = some out ∧ out.length = dfEx.length ∧
      (∀ i, i < dfEx.length →
        (out.getD i ⟨0, 0, 0, 0⟩).closePrice =
          ((dfEx.getD i ⟨0, 0, 0, 0⟩).openPrice + (dfEx.getD i ⟨0, 0, 0, 0⟩).highPrice +
            (dfEx.getD i ⟨0, 0, 0, 0⟩).lowPrice + (dfEx.getD i ⟨0, 0, 0, 0⟩).closePrice) / 4) ∧
      (out.getD 0 ⟨0, 0, 0, 0⟩).openPrice =
        ((dfEx.getD 0 ⟨0, 0, 0, 0⟩).openPrice + (dfEx.getD 0 ⟨0, 0, 0, 0⟩).closePrice) / 2 ∧
      (∀ i, i + 1 < dfEx.length →
        (out.getD (i + 1) ⟨0, 0, 0, 0⟩).openPrice =
          ((out.getD i ⟨0, 0, 0, 0⟩).openPrice + (out.getD i ⟨0, 0, 0, 0⟩).closePrice) / 2) ∧
      (∀ i, i < dfEx.length →
        (out.getD i ⟨0, 0, 0, 0⟩).highPrice =
          max (max (out.getD i ⟨0, 0, 0, 0⟩).openPrice (out.getD i ⟨0, 0, 0, 0⟩).closePrice)
            (dfEx.getD i ⟨0, 0, 0, 0⟩).highPrice) ∧
      (∀ i, i < dfEx.length →
        (out.getD i ⟨0, 0, 0, 0⟩).lowPrice =
          min (min (out.getD i ⟨0, 0, 0, 0⟩).openPrice (out.getD i ⟨0, 0, 0, 0⟩).closePrice)
            (dfEx.getD i ⟨0, 0, 0, 0⟩).lowPrice) :=
  heikin_ashi_spec dfEx (by decide)

/-- C10: when the price rises or stays flat at every step inside the
14-step RSI window, the rolling average loss is zero, the zero average loss
is replaced by infinity so the relative-strength ratio is 0, the RSI is 0 —
the maximally oversold reading — and the BUY confirmation check accepts the
value 0 as oversold. -/
theorem rsi_zero_loss_returns_zero (close : ℕ → ℚ) (t : ℕ)
    (hmono : ∀ k, k < 14 → close (t + k) ≤ close (t + k + 1)) :
    avgLossF close 14 (t + 14) = some 0 ∧ rsiF close 14 (t + 14) = some 0 ∧
    confirmationCheck SignalType.buy 0 = true := by
  have hsum : (((List.range 14).map fun i => lossF close (t + 14 - i)).sum : ℚ) = 0 := by
    apply List.sum_eq_zero
    intro y hy
    simp only [List.mem_map, List.mem_range] at hy
    obtain ⟨i, hi, rfl⟩ := hy
    have he : t + 14 - i = t + (13 - i) + 1 := by omega
    rw [he]
    exact lossF_succ_zero close (t + (13 - i)) (hmono (13 - i) (by omega))
  have hloss : avgLossF close 14 (t + 14) = some 0 := by
    simp [avgLossF, rollingMeanTot, hsum]
  refine ⟨hloss, ?_, by decide⟩
  have hgain : avgGainF close 14 (t + 14) =
      some ((((List.range 14).map fun i => gainF close (t + 14 - i)).sum) / 14) := by
    simp [avgGainF, rollingMeanTot]
  have hrs : rsF close 14 (t + 14) = some 0 := by
    simp [rsF, hgain, hloss]
  simp [rsiF, hrs]

/-- C10 witness: a strictly rising close series. -/
theorem rsi_zero_loss_witness :
    avgLossF (fun n => (n : ℚ)) 14 14 = some 0 ∧
    rsiF (fun n => (n : ℚ)) 14 14 = some 0 ∧
    confirmationCheck SignalType.buy 0 = true :=
  rsi_zero_loss_returns_zero (fun n => (n : ℚ)) 0
    (fun k _ => by push_cast; linarith)
